import Mathlib

/-!
Verification of the password entropy evaluation service.

The development shallowly embeds the four modules of the program:

* `services/services.py` — entropy computation (`calculate_L`, `calculate_N`,
  `calculate_entropy`), composition analysis (`analyze_composition`),
  crack-time estimation (`calculate_crack_time`), strength classification
  (`get_strength_category`) and the orchestrator (`evaluate_password`);
* `database/database.py` — the SQLite-backed membership and rank lookups
  (`is_common_password`, `get_password_rank`) and the `functools.lru_cache`
  wrapper around the membership lookup (`lru_call`,
  `is_common_password_cached`);
* `main.py` — the startup `lifespan` hook built on `init_database`;
* `models/models.py` — the result records (`CompositionInfo`, `CrackTime`,
  `PasswordEvaluation`).

Floating point values are embedded as real numbers with explicit rounding
(`round2` models the Python builtin `round(x, 2)` as rounding `x * 100` to the nearest
integer); SQLite calls are embedded as a query function that may fail
(`Except`), matching the broad `try/except` blocks of the source; the Python
Unicode-table character classification methods of `str` are embedded as an explicit
record of predicates (`CharSem`), with an ASCII instance that coincides with
CPython on ASCII input.
-/

open Real

open scoped Classical

/-- Host character classification: models the Python `str` methods
`c.islower()`, `c.isupper()`, `c.isdigit()`, `c.isalnum()` used in
`services.py` lines 41-44 and 93-96.  Their semantics are given by the
Unicode tables of the host, so the engine is embedded parametrically in them. -/
structure CharSem where
  islower : Char → Bool
  isupper : Char → Bool
  isdigit : Char → Bool
  isalnum : Char → Bool

/-- The CPython classification restricted to ASCII input, where the Lean
predicates `Char.isLower`, `Char.isUpper`, `Char.isDigit`, `Char.isAlphanum`
coincide with the Python `str` methods. -/
def asciiSem : CharSem :=
  ⟨Char.isLower, Char.isUpper, Char.isDigit, Char.isAlphanum⟩

/-- A classification extending the ASCII one with a single caseless
alphanumeric character, the CJK ideograph, exactly as CPython classifies
ideographs: alphanumeric (`isalnum` true) but neither lowercase, uppercase
nor a digit. -/
def cjkSem : CharSem :=
  ⟨Char.isLower, Char.isUpper, Char.isDigit, fun c => c.isAlphanum || c == '中'⟩

/-- Source `services.py` lines 13-23: `calculate_L(password) = len(password)`. -/
def calculate_L (password : String) : Nat := password.length

/-- Source `services.py` lines 25-56: keyspace from the character classes present.
The source accumulates `keyspace` with four `if` additions and returns
`keyspace if keyspace > 0 else 1`. -/
def calculate_N (sem : CharSem) (password : String) : Nat :=
  let has_lowercase := password.data.any sem.islower
  let has_uppercase := password.data.any sem.isupper
  let has_digits := password.data.any sem.isdigit
  let has_symbols := password.data.any (fun c => !(sem.isalnum c))
  let keyspace :=
    (if has_lowercase then 26 else 0) + (if has_uppercase then 26 else 0) +
      (if has_digits then 10 else 0) + (if has_symbols then 32 else 0)
  if keyspace > 0 then keyspace else 1

/-- Rounding to two decimal places as the Python builtin `round(x, 2)`
does, embedded as
rounding `x * 100` to the nearest integer. -/
noncomputable def round2 (x : ℝ) : ℝ := ((round (x * 100) : ℤ) : ℝ) / 100

/-- Source `services.py` lines 58-75: `E = L * log2(N)` rounded to two decimals,
guarded to `0.0` when `L == 0 or N == 0`. -/
noncomputable def calculate_entropy (sem : CharSem) (password : String) : ℝ :=
  let L := calculate_L password
  let N := calculate_N sem password
  if L = 0 ∨ N = 0 then 0 else round2 ((L : ℝ) * Real.logb 2 (N : ℝ))

/-- Source `models/models.py`: `CompositionInfo`. -/
structure CompositionInfo where
  length : Nat
  has_lowercase : Bool
  has_uppercase : Bool
  has_digits : Bool
  has_symbols : Bool
  keyspace : Nat

/-- Source `services.py` lines 81-98: `analyze_composition`. -/
def analyze_composition (sem : CharSem) (password : String) : CompositionInfo :=
  { length := calculate_L password
    has_lowercase := password.data.any sem.islower
    has_uppercase := password.data.any sem.isupper
    has_digits := password.data.any sem.isdigit
    has_symbols := password.data.any (fun c => !(sem.isalnum c))
    keyspace := calculate_N sem password }

/-- Source `models/models.py`: `CrackTime`. -/
structure CrackTime where
  value : ℝ
  unit : String

/-- Source `services.py` line 115: `attempts_per_second = 10**11`. -/
def attempts_per_second : Nat := 10 ^ 11

/-- Source `services.py` lines 116-117: `total_combinations = 2**entropy` and
`seconds = total_combinations / (2 * attempts_per_second)`. -/
noncomputable def crack_seconds (entropy : ℝ) : ℝ :=
  (2 : ℝ) ^ entropy / (2 * (attempts_per_second : ℝ))

/-- Source `services.py` lines 104-133: `calculate_crack_time`, the ordered band
table converting seconds into a human-scaled unit, each value rounded to
two decimals. -/
noncomputable def calculate_crack_time (entropy : ℝ) : CrackTime :=
  let seconds := crack_seconds entropy
  if seconds < 1 then ⟨round2 (seconds * 1000), "milisegundos"⟩
  else if seconds < 60 then ⟨round2 seconds, "segundos"⟩
  else if seconds < 3600 then ⟨round2 (seconds / 60), "minutos"⟩
  else if seconds < 86400 then ⟨round2 (seconds / 3600), "horas"⟩
  else if seconds < 31536000 then ⟨round2 (seconds / 86400), "días"⟩
  else if seconds < 31536000000 then ⟨round2 (seconds / 31536000), "años"⟩
  else ⟨round2 (seconds / 31536000000), "milenios"⟩

/-- The crack-time estimator as CPython actually executes it: the source
expression `2**entropy` at line 116 is a float power (`entropy` is a Python
float), and CPython raises `OverflowError` as soon as `2^entropy` exceeds
the largest finite IEEE-754 double, which happens for every
`entropy ≥ 1024`.  The `Except.error` value embeds that raised exception. -/
noncomputable def calculate_crack_time_float (entropy : ℝ) : Except Unit CrackTime :=
  if entropy < 1024 then Except.ok (calculate_crack_time entropy)
  else Except.error ()

/-- Source `services.py` lines 139-178: `get_strength_category`, the five
half-open entropy bands with their labels, scores and default
recommendation strings. -/
noncomputable def get_strength_category (entropy : ℝ) : String × Nat × String :=
  if entropy < 40 then
    ("Muy Débil", 1,
      "Aumenta la longitud y usa diferentes tipos de caracteres (mayúsculas, minúsculas, números, símbolos).")
  else if entropy < 60 then
    ("Débil", 2,
      "Considera agregar más caracteres y variar los tipos de caracteres utilizados.")
  else if entropy < 80 then
    ("Aceptable", 3,
      "Contraseña razonable, pero podría mejorarse con mayor longitud o complejidad.")
  else if entropy < 100 then
    ("Fuerte", 4,
      "Buena contraseña. Mantenla segura y no la reutilices en otros sitios.")
  else
    ("Muy Fuerte", 5,
      "Excelente contraseña. Asegúrate de almacenarla de forma segura.")

/-- The Python method `str.lower` on the ASCII range (the corpus rows are stored
lower-cased under `password_lower`). -/
def py_lower (s : String) : String := ⟨s.data.map Char.toLower⟩

/-- The global database state of `database/database.py`: `conn` models the
truthiness of `DB_CONNECTION`, and `query` models an SQL `SELECT` on the
`passwords` table keyed by `password_lower`, returning the stored rank if a
row matches; `Except.error` embeds an sqlite exception caught by the broad
`except` blocks of the source. -/
structure DBState where
  conn : Bool
  query : String → Except String (Option Nat)

/-- Source `database.py` lines 72-96 (body of `is_common_password`, without its
`lru_cache` wrapper, which is `lru_call` below): returns `False` when
`DB_CONNECTION` is falsy, the row-existence check on success, and `False`
after printing a diagnostic when the query raises.  The second component
collects the printed diagnostics. -/
def is_common_password (db : DBState) (password : String) : Bool × List String :=
  if db.conn then
    match db.query (py_lower password) with
    | Except.ok row => (row.isSome, [])
    | Except.error e => (false, ["Error en búsqueda de contraseña: " ++ e])
  else (false, [])

/-- Source `database.py` lines 98-121: `get_password_rank`, uncached; returns
`None` when `DB_CONNECTION` is falsy or the query raises (printing a
diagnostic in the latter case). -/
def get_password_rank (db : DBState) (password : String) : Option Nat × List String :=
  if db.conn then
    match db.query (py_lower password) with
    | Except.ok row => (row, [])
    | Except.error e => (none, ["Error al obtener rank: " ++ e])
  else (none, [])

/-- The memo table of `functools.lru_cache`: argument/result pairs held
most-recently-used first. -/
structure LRUCache where
  entries : List (String × Bool)

/-- Source `database.py` line 72: `@lru_cache(maxsize=10000)`. -/
def CACHE_MAXSIZE : Nat := 10000

/-- One call through a `functools.lru_cache(maxsize)`-wrapped function
`f`: a hit returns the memoized value and moves its key to the
most-recently-used position without calling `f`; a miss calls `f`, inserts
the pair at the most-recently-used position and evicts the
least-recently-used pair when the capacity is exceeded.  The cache keys on
the raw call argument, exactly as `functools.lru_cache` keys on the
argument tuple. -/
def lru_call (f : String → Bool) (maxsize : Nat) (c : LRUCache) (k : String) :
    Bool × LRUCache :=
  match c.entries.lookup k with
  | some v => (v, ⟨(k, v) :: c.entries.eraseP (fun e => e.1 == k)⟩)
  | none =>
    let v := f k
    let es := (k, v) :: c.entries
    (v, ⟨if es.length > maxsize then es.dropLast else es⟩)

/-- The cache contents are a correct memo of `f`: every cached pair stores
the value `f` returns for its key. -/
def Coherent (f : String → Bool) (c : LRUCache) : Prop :=
  ∀ kv ∈ c.entries, kv.2 = f kv.1

/-- Source `database.py` lines 72-96 as callers see it: `is_common_password`
including its `lru_cache` wrapper, threaded through an explicit cache
state. -/
def is_common_password_cached (db : DBState) (c : LRUCache) (password : String) :
    Bool × LRUCache :=
  lru_call (fun q => (is_common_password db q).1) CACHE_MAXSIZE c password

/-- Source `models/models.py`: `PasswordEvaluation`. -/
structure PasswordEvaluation where
  strength : String
  score : Nat
  entropy : ℝ
  is_common : Bool
  rank : Option Nat
  crack_time : CrackTime
  composition : CompositionInfo
  recommendation : String

/-- Source `services.py` lines 209-212: the f-string recommendation built for a
dictionary password.  The source formats the rank with thousands
separators (`{rank:,}`); the embedding prints the plain decimal digits,
which is immaterial to every claim (the recommendation names the rank). -/
def dict_recommendation (rank : Nat) : String :=
  "Esta contraseña está en el puesto #" ++ toString rank ++
    " de las más comunes. Es extremadamente predecible. Cámbiala inmediatamente."

/-- Source `services.py` lines 180-234: `evaluate_password`.  The two database
reads are passed in as the functions `isCommonF` (the `lru_cache`-wrapped
membership check) and `rankF` (the uncached rank lookup), exactly the two
names the source imports.  When the password is common but the rank lookup
returned `None`, the f-string `f"...#{rank:,}..."` raises `TypeError`
(formatting `None` with `,`), embedded as `Except.error`. -/
noncomputable def evaluate_password (sem : CharSem) (isCommonF : String → Bool)
    (rankF : String → Option Nat) (password : String) :
    Except Unit PasswordEvaluation :=
  let entropy := calculate_entropy sem password
  let is_common := isCommonF password
  let rank := if is_common then rankF password else none
  let classified : Except Unit (String × Nat × ℝ × String) :=
    if is_common then
      match rank with
      | some r => Except.ok ("Muy Débil (En Diccionario)", 0, 0, dict_recommendation r)
      | none => Except.error ()
    else
      let c := get_strength_category entropy
      Except.ok (c.1, c.2.1, entropy, c.2.2)
  classified.map fun sr =>
    { strength := sr.1
      score := sr.2.1
      entropy := sr.2.2.1
      is_common := is_common
      rank := rank
      crack_time := calculate_crack_time sr.2.2.1
      composition := analyze_composition sem password
      recommendation := sr.2.2.2 }

/-- The startup environment of `main.py` / `database.py`:
`db_file_exists` models `os.path.exists(DB_FILE)` and `connect_ok` models
the connection plus `SELECT COUNT(*)` probe succeeding. -/
structure StartupEnv where
  db_file_exists : Bool
  connect_ok : Bool

/-- Source `database.py` lines 36-59: `init_database` returns `True` exactly when
the database file exists and the connection probe succeeds. -/
def init_database (env : StartupEnv) : Bool :=
  env.db_file_exists && env.connect_ok

/-- Source `main.py` lines 155-175: the `lifespan` startup hook.  When
`init_database()` returns `False` it raises
`RuntimeError("Base de datos no disponible")`, which aborts FastAPI
startup, so the application serves no request; otherwise startup
proceeds. -/
def lifespan (env : StartupEnv) : Except String Unit :=
  if init_database env then Except.ok () else Except.error "Base de datos no disponible"

/-- A store with a working connection and no rows (used at concrete
inputs). -/
def db_empty : DBState := ⟨true, fun _ => Except.ok none⟩

/-- A store holding the single corpus row `("pw", rank 1)` (used at
concrete inputs). -/
def db_pw : DBState :=
  ⟨true, fun q => if q = "pw" then Except.ok (some 1) else Except.ok none⟩

/-- A store whose every query raises (a transient lookup failure, used at
concrete inputs). -/
def db_fail : DBState := ⟨true, fun _ => Except.error "disk I/O error"⟩

-- ===========================================================================
-- Helper lemmas
-- ===========================================================================

lemma calculate_N_pos (sem : CharSem) (password : String) :
    1 ≤ calculate_N sem password := by
  unfold calculate_N
  dsimp only
  split_ifs <;> omega

lemma round2_zero : round2 0 = 0 := by
  simp [round2]

lemma round2_nonneg {x : ℝ} (hx : 0 ≤ x) : 0 ≤ round2 x := by
  unfold round2
  have h : (0 : ℤ) ≤ round (x * 100) := by
    rw [round_eq]
    exact Int.le_floor.mpr (by push_cast; linarith)
  have h' : (0 : ℝ) ≤ ((round (x * 100) : ℤ) : ℝ) := by exact_mod_cast h
  linarith

-- ===========================================================================
-- Claim theorems
-- ===========================================================================

/-- Claim C2: for every string `s`, `calculate_entropy` returns
`length(s) × log2(keyspace(s))` rounded to two decimal places; it returns
`0.0` when the length is `0` or the keyspace resolves to `0`; it is always
non-negative; and it returns `0.0` on the empty string. -/
theorem entropy_formula (sem : CharSem) (s : String) :
    calculate_entropy sem s =
      round2 ((calculate_L s : ℝ) * Real.logb 2 (calculate_N sem s : ℝ)) ∧
    (calculate_L s = 0 ∨ calculate_N sem s = 0 → calculate_entropy sem s = 0) ∧
    0 ≤ calculate_entropy sem s ∧
    calculate_entropy sem "" = 0 := by
  have hN := calculate_N_pos sem s
  have hlog : 0 ≤ Real.logb 2 ((calculate_N sem s : ℕ) : ℝ) :=
    Real.logb_nonneg one_lt_two (by exact_mod_cast hN)
  refine ⟨?_, ?_, ?_, ?_⟩
  · unfold calculate_entropy
    dsimp only
    split_ifs with h
    · rcases h with h | h
      · rw [h]
        push_cast
        rw [zero_mul, round2_zero]
      · omega
    · rfl
  · intro h
    unfold calculate_entropy
    dsimp only
    split_ifs
    rfl
  · unfold calculate_entropy
    dsimp only
    split_ifs with h
    · exact le_refl (0 : ℝ)
    · exact round2_nonneg (mul_nonneg (Nat.cast_nonneg _) hlog)
  · unfold calculate_entropy
    dsimp only
    simp [calculate_L]

/-- Witness for C2: the formula theorem applied at the empty string (whose
length-0 guard fires) and at a concrete non-empty string. -/
theorem entropy_formula_witness :
    (calculate_L "" = 0 ∨ calculate_N asciiSem "" = 0) ∧
    calculate_entropy asciiSem "" = 0 ∧
    0 ≤ calculate_entropy asciiSem "aaaaaaaa" ∧
    calculate_entropy asciiSem "aaaaaaaa" =
      round2 ((calculate_L "aaaaaaaa" : ℝ) *
        Real.logb 2 (calculate_N asciiSem "aaaaaaaa" : ℝ)) :=
  ⟨Or.inl rfl, (entropy_formula asciiSem "").2.1 (Or.inl rfl),
   (entropy_formula asciiSem "aaaaaaaa").2.2.1,
   (entropy_formula asciiSem "aaaaaaaa").1⟩

/-- Claim C3: the keyspace is the sum of the fixed weights of the character
classes present (lowercase +26, uppercase +26, digits +10, symbols +32), is
never zero, equals 1 exactly when no recognized class is present (the empty
string, and any class-free non-empty input such as a caseless alphanumeric
ideograph), and for a string using exactly one class it equals the fixed
weight of that class. -/
theorem keyspace_class_weights (sem : CharSem) (s : String) :
    (analyze_composition sem s).keyspace = calculate_N sem s ∧
    1 ≤ calculate_N sem s ∧
    (((analyze_composition sem s).has_lowercase = true ∨
      (analyze_composition sem s).has_uppercase = true ∨
      (analyze_composition sem s).has_digits = true ∨
      (analyze_composition sem s).has_symbols = true) →
      calculate_N sem s =
        (if (analyze_composition sem s).has_lowercase then 26 else 0) +
        (if (analyze_composition sem s).has_uppercase then 26 else 0) +
        (if (analyze_composition sem s).has_digits then 10 else 0) +
        (if (analyze_composition sem s).has_symbols then 32 else 0)) ∧
    (((analyze_composition sem s).has_lowercase = false ∧
      (analyze_composition sem s).has_uppercase = false ∧
      (analyze_composition sem s).has_digits = false ∧
      (analyze_composition sem s).has_symbols = false) →
      calculate_N sem s = 1) ∧
    (((analyze_composition sem s).has_lowercase = true ∧
      (analyze_composition sem s).has_uppercase = false ∧
      (analyze_composition sem s).has_digits = false ∧
      (analyze_composition sem s).has_symbols = false) →
      calculate_N sem s = 26) ∧
    (((analyze_composition sem s).has_lowercase = false ∧
      (analyze_composition sem s).has_uppercase = true ∧
      (analyze_composition sem s).has_digits = false ∧
      (analyze_composition sem s).has_symbols = false) →
      calculate_N sem s = 26) ∧
    (((analyze_composition sem s).has_lowercase = false ∧
      (analyze_composition sem s).has_uppercase = false ∧
      (analyze_composition sem s).has_digits = true ∧
      (analyze_composition sem s).has_symbols = false) →
      calculate_N sem s = 10) ∧
    (((analyze_composition sem s).has_lowercase = false ∧
      (analyze_composition sem s).has_uppercase = false ∧
      (analyze_composition sem s).has_digits = false ∧
      (analyze_composition sem s).has_symbols = true) →
      calculate_N sem s = 32) := by
  unfold analyze_composition calculate_N
  dsimp only
  cases hl : s.data.any sem.islower <;>
    cases hu : s.data.any sem.isupper <;>
      cases hd : s.data.any sem.isdigit <;>
        cases hs : s.data.any (fun c => !(sem.isalnum c)) <;>
          simp [hl, hu, hd, hs]

/-- Witness for C3 at concrete inputs: an all-lowercase string yields
keyspace 26, an all-digit string 10, a class-free non-empty ideograph
string 1, the empty string 1, and a string using all four classes 94. -/
theorem keyspace_class_weights_witness :
    (analyze_composition asciiSem "abc").has_lowercase = true ∧
    calculate_N asciiSem "abc" = 26 ∧
    calculate_N asciiSem "1234" = 10 ∧
    calculate_N asciiSem "ABC" = 26 ∧
    calculate_N asciiSem " !" = 32 ∧
    calculate_N cjkSem "中" = 1 ∧
    calculate_N asciiSem "" = 1 ∧
    calculate_N asciiSem "aB1!" = 94 := by
  refine ⟨by decide, ?_, ?_, ?_, ?_, ?_, ?_, ?_⟩
  · exact (keyspace_class_weights asciiSem "abc").2.2.2.2.1 (by decide)
  · exact (keyspace_class_weights asciiSem "1234").2.2.2.2.2.2.1 (by decide)
  · exact (keyspace_class_weights asciiSem "ABC").2.2.2.2.2.1 (by decide)
  · exact (keyspace_class_weights asciiSem " !").2.2.2.2.2.2.2 (by decide)
  · exact (keyspace_class_weights cjkSem "中").2.2.2.1 (by decide)
  · exact (keyspace_class_weights asciiSem "").2.2.2.1 (by decide)
  · have h := (keyspace_class_weights asciiSem "aB1!").2.2.1 (by decide)
    rw [h]
    decide

lemma gsc_band1 {e : ℝ} (h : e < 40) :
    (get_strength_category e).1 = "Muy Débil" ∧ (get_strength_category e).2.1 = 1 := by
  unfold get_strength_category
  rw [if_pos h]
  exact ⟨rfl, rfl⟩

lemma gsc_band2 {e : ℝ} (h1 : ¬e < 40) (h2 : e < 60) :
    (get_strength_category e).1 = "Débil" ∧ (get_strength_category e).2.1 = 2 := by
  unfold get_strength_category
  rw [if_neg h1, if_pos h2]
  exact ⟨rfl, rfl⟩

lemma gsc_band3 {e : ℝ} (h1 : ¬e < 40) (h2 : ¬e < 60) (h3 : e < 80) :
    (get_strength_category e).1 = "Aceptable" ∧ (get_strength_category e).2.1 = 3 := by
  unfold get_strength_category
  rw [if_neg h1, if_neg h2, if_pos h3]
  exact ⟨rfl, rfl⟩

lemma gsc_band4 {e : ℝ} (h1 : ¬e < 40) (h2 : ¬e < 60) (h3 : ¬e < 80) (h4 : e < 100) :
    (get_strength_category e).1 = "Fuerte" ∧ (get_strength_category e).2.1 = 4 := by
  unfold get_strength_category
  rw [if_neg h1, if_neg h2, if_neg h3, if_pos h4]
  exact ⟨rfl, rfl⟩

lemma gsc_band5 {e : ℝ} (h1 : ¬e < 40) (h2 : ¬e < 60) (h3 : ¬e < 80) (h4 : ¬e < 100) :
    (get_strength_category e).1 = "Muy Fuerte" ∧ (get_strength_category e).2.1 = 5 := by
  unfold get_strength_category
  rw [if_neg h1, if_neg h2, if_neg h3, if_neg h4]
  exact ⟨rfl, rfl⟩

/-- Claim C4: the strength classifier partitions non-negative entropy into
five contiguous half-open bands with inclusive lower bounds — the score is
1 exactly on [0,40), 2 exactly on [40,60), 3 exactly on [60,80), 4 exactly
on [80,100) and 5 exactly on [100,∞), so every non-negative entropy maps
to exactly one band and its label; entropy 40.0 falls in the score-2
"Débil" band, not the score-1 "Muy Débil" band. -/
theorem strength_bands :
    (∀ e : ℝ, 0 ≤ e →
      (((get_strength_category e).2.1 = 1) ↔ e ∈ Set.Ico (0 : ℝ) 40) ∧
      (((get_strength_category e).2.1 = 2) ↔ e ∈ Set.Ico (40 : ℝ) 60) ∧
      (((get_strength_category e).2.1 = 3) ↔ e ∈ Set.Ico (60 : ℝ) 80) ∧
      (((get_strength_category e).2.1 = 4) ↔ e ∈ Set.Ico (80 : ℝ) 100) ∧
      (((get_strength_category e).2.1 = 5) ↔ e ∈ Set.Ici (100 : ℝ))) ∧
    (∀ e : ℝ, e ∈ Set.Ico (0 : ℝ) 40 → (get_strength_category e).1 = "Muy Débil") ∧
    (∀ e : ℝ, e ∈ Set.Ico (40 : ℝ) 60 → (get_strength_category e).1 = "Débil") ∧
    (∀ e : ℝ, e ∈ Set.Ico (60 : ℝ) 80 → (get_strength_category e).1 = "Aceptable") ∧
    (∀ e : ℝ, e ∈ Set.Ico (80 : ℝ) 100 → (get_strength_category e).1 = "Fuerte") ∧
    (∀ e : ℝ, e ∈ Set.Ici (100 : ℝ) → (get_strength_category e).1 = "Muy Fuerte") ∧
    (get_strength_category 40).1 = "Débil" ∧ (get_strength_category 40).2.1 = 2 ∧
    (get_strength_category 40).1 ≠ "Muy Débil" ∧ (get_strength_category 40).2.1 ≠ 1 := by
  have h40 := gsc_band2 (e := 40) (by norm_num) (by norm_num)
  refine ⟨?_, ?_, ?_, ?_, ?_, ?_, h40.1, h40.2, ?_, ?_⟩
  · intro e he
    rcases lt_or_le e 40 with h1 | h1
    · rw [(gsc_band1 h1).2]
      refine ⟨?_, ?_, ?_, ?_, ?_⟩ <;>
        simp only [Set.mem_Ico, Set.mem_Ici] <;>
          first
            | (simp only [iff_true_intro rfl, true_iff]; exact ⟨he, h1⟩)
            | (constructor
               · intro hx; exact absurd hx (by decide)
               · rintro ⟨ha, hb⟩; exact absurd (by linarith : e < 40) (not_lt.mpr ha))
            | (constructor
               · intro hx; exact absurd hx (by decide)
               · intro ha; exact absurd (by linarith : e < 40) (not_lt.mpr (by linarith)))
    · rcases lt_or_le e 60 with h2 | h2
      · rw [(gsc_band2 (not_lt.mpr h1) h2).2]
        refine ⟨?_, ?_, ?_, ?_, ?_⟩ <;> simp only [Set.mem_Ico, Set.mem_Ici] <;>
          first
            | (simp only [iff_true_intro rfl, true_iff]; exact ⟨h1, h2⟩)
            | (constructor
               · intro hx; exact absurd hx (by decide)
               · rintro ⟨ha, hb⟩; linarith)
            | (constructor
               · intro hx; exact absurd hx (by decide)
               · intro ha; linarith)
      · rcases lt_or_le e 80 with h3 | h3
        · rw [(gsc_band3 (not_lt.mpr h1) (not_lt.mpr h2) h3).2]
          refine ⟨?_, ?_, ?_, ?_, ?_⟩ <;> simp only [Set.mem_Ico, Set.mem_Ici] <;>
            first
              | (simp only [iff_true_intro rfl, true_iff]; exact ⟨h2, h3⟩)
              | (constructor
                 · intro hx; exact absurd hx (by decide)
                 · rintro ⟨ha, hb⟩; linarith)
              | (constructor
                 · intro hx; exact absurd hx (by decide)
                 · intro ha; linarith)
        · rcases lt_or_le e 100 with h4 | h4
          · rw [(gsc_band4 (not_lt.mpr h1) (not_lt.mpr h2) (not_lt.mpr h3) h4).2]
            refine ⟨?_, ?_, ?_, ?_, ?_⟩ <;> simp only [Set.mem_Ico, Set.mem_Ici] <;>
              first
                | (simp only [iff_true_intro rfl, true_iff]; exact ⟨h3, h4⟩)
                | (constructor
                   · intro hx; exact absurd hx (by decide)
                   · rintro ⟨ha, hb⟩; linarith)
                | (constructor
                   · intro hx; exact absurd hx (by decide)
                   · intro ha; linarith)
          · rw [(gsc_band5 (not_lt.mpr h1) (not_lt.mpr h2) (not_lt.mpr h3) (not_lt.mpr h4)).2]
            refine ⟨?_, ?_, ?_, ?_, ?_⟩ <;> simp only [Set.mem_Ico, Set.mem_Ici] <;>
              first
                | (simp only [iff_true_intro rfl, true_iff]; exact h4)
                | (constructor
                   · intro hx; exact absurd hx (by decide)
                   · rintro ⟨ha, hb⟩; linarith)
  · rintro e ⟨ha, hb⟩; exact (gsc_band1 hb).1
  · rintro e ⟨ha, hb⟩; exact (gsc_band2 (not_lt.mpr ha) hb).1
  · rintro e ⟨ha, hb⟩; exact (gsc_band3 (not_lt.mpr (by linarith)) (not_lt.mpr ha) hb).1
  · rintro e ⟨ha, hb⟩;
    exact (gsc_band4 (not_lt.mpr (by linarith)) (not_lt.mpr (by linarith)) (not_lt.mpr ha) hb).1
  · intro e ha
    exact (gsc_band5 (not_lt.mpr (by linarith [Set.mem_Ici.mp ha]))
      (not_lt.mpr (by linarith [Set.mem_Ici.mp ha]))
      (not_lt.mpr (by linarith [Set.mem_Ici.mp ha]))
      (not_lt.mpr (Set.mem_Ici.mp ha))).1
  · rw [h40.1]; decide
  · rw [h40.2]; decide

/-- Witness for C4 at the boundary entropy 40: the hypotheses of the band
theorem are discharged at the concrete value 40, which falls in the
score-2 band [40, 60) and not in [0, 40). -/
theorem strength_bands_witness :
    (0 : ℝ) ≤ 40 ∧
    ((get_strength_category (40 : ℝ)).2.1 = 2 ↔ (40 : ℝ) ∈ Set.Ico (40 : ℝ) 60) ∧
    ((get_strength_category (40 : ℝ)).2.1 = 1 ↔ (40 : ℝ) ∈ Set.Ico (0 : ℝ) 40) ∧
    (get_strength_category (40 : ℝ)).1 = "Débil" := by
  refine ⟨by norm_num, ?_, ?_, ?_⟩
  · exact ((strength_bands.1 40 (by norm_num)).2.1)
  · exact ((strength_bands.1 40 (by norm_num)).1)
  · exact strength_bands.2.2.1 40 (by constructor <;> norm_num)

lemma cct_band1 {E : ℝ} (h : crack_seconds E < 1) :
    calculate_crack_time E = ⟨round2 (crack_seconds E * 1000), "milisegundos"⟩ := by
  unfold calculate_crack_time
  dsimp only
  rw [if_pos h]

lemma cct_band2 {E : ℝ} (h1 : ¬crack_seconds E < 1) (h2 : crack_seconds E < 60) :
    calculate_crack_time E = ⟨round2 (crack_seconds E), "segundos"⟩ := by
  unfold calculate_crack_time
  dsimp only
  rw [if_neg h1, if_pos h2]

lemma cct_band3 {E : ℝ} (h1 : ¬crack_seconds E < 1) (h2 : ¬crack_seconds E < 60)
    (h3 : crack_seconds E < 3600) :
    calculate_crack_time E = ⟨round2 (crack_seconds E / 60), "minutos"⟩ := by
  unfold calculate_crack_time
  dsimp only
  rw [if_neg h1, if_neg h2, if_pos h3]

lemma cct_band4 {E : ℝ} (h1 : ¬crack_seconds E < 1) (h2 : ¬crack_seconds E < 60)
    (h3 : ¬crack_seconds E < 3600) (h4 : crack_seconds E < 86400) :
    calculate_crack_time E = ⟨round2 (crack_seconds E / 3600), "horas"⟩ := by
  unfold calculate_crack_time
  dsimp only
  rw [if_neg h1, if_neg h2, if_neg h3, if_pos h4]

lemma cct_band5 {E : ℝ} (h1 : ¬crack_seconds E < 1) (h2 : ¬crack_seconds E < 60)
    (h3 : ¬crack_seconds E < 3600) (h4 : ¬crack_seconds E < 86400)
    (h5 : crack_seconds E < 31536000) :
    calculate_crack_time E = ⟨round2 (crack_seconds E / 86400), "días"⟩ := by
  unfold calculate_crack_time
  dsimp only
  rw [if_neg h1, if_neg h2, if_neg h3, if_neg h4, if_pos h5]

lemma cct_band6 {E : ℝ} (h1 : ¬crack_seconds E < 1) (h2 : ¬crack_seconds E < 60)
    (h3 : ¬crack_seconds E < 3600) (h4 : ¬crack_seconds E < 86400)
    (h5 : ¬crack_seconds E < 31536000) (h6 : crack_seconds E < 31536000000) :
    calculate_crack_time E = ⟨round2 (crack_seconds E / 31536000), "años"⟩ := by
  unfold calculate_crack_time
  dsimp only
  rw [if_neg h1, if_neg h2, if_neg h3, if_neg h4, if_neg h5, if_pos h6]

lemma cct_band7 {E : ℝ} (h1 : ¬crack_seconds E < 1) (h2 : ¬crack_seconds E < 60)
    (h3 : ¬crack_seconds E < 3600) (h4 : ¬crack_seconds E < 86400)
    (h5 : ¬crack_seconds E < 31536000) (h6 : ¬crack_seconds E < 31536000000) :
    calculate_crack_time E = ⟨round2 (crack_seconds E / 31536000000), "milenios"⟩ := by
  unfold calculate_crack_time
  dsimp only
  rw [if_neg h1, if_neg h2, if_neg h3, if_neg h4, if_neg h5, if_neg h6]

lemma crack_seconds_mono {E₁ E₂ : ℝ} (h : E₁ ≤ E₂) :
    crack_seconds E₁ ≤ crack_seconds E₂ := by
  unfold crack_seconds
  have h2 : (2 : ℝ) ^ E₁ ≤ (2 : ℝ) ^ E₂ :=
    Real.rpow_le_rpow_of_exponent_le (by norm_num) h
  have hc : (0 : ℝ) < 2 * (attempts_per_second : ℝ) := by
    norm_num [attempts_per_second]
  exact (div_le_div_iff_of_pos_right hc).mpr h2

lemma crack_seconds_zero : crack_seconds 0 = 1 / (2 * 10 ^ 11) := by
  unfold crack_seconds
  rw [Real.rpow_zero]
  norm_num [attempts_per_second]

lemma crack_seconds_logb {x : ℝ} (hx : 0 < x) :
    crack_seconds (Real.logb 2 x) = x / (2 * 10 ^ 11) := by
  unfold crack_seconds
  rw [Real.rpow_logb (by norm_num) (by norm_num) hx]
  norm_num [attempts_per_second]

/-- Claim C5: the crack-time estimator computes
`seconds = 2^E / (2 × 10^11)` and selects the unit by the ordered band
table, rounding the converted value to two decimals; `seconds` is
monotonically non-decreasing in `E`; at a band boundary the next band is
chosen (`seconds == 60.0` selects minutes, not seconds); and `E = 0`
yields a sub-millisecond value in the milliseconds band. -/
theorem crack_time_bands :
    (∀ E : ℝ, crack_seconds E = (2 : ℝ) ^ E / (2 * 10 ^ 11)) ∧
    (∀ E₁ E₂ : ℝ, E₁ ≤ E₂ → crack_seconds E₁ ≤ crack_seconds E₂) ∧
    (∀ E : ℝ,
      (crack_seconds E < 1 →
        calculate_crack_time E = ⟨round2 (crack_seconds E * 1000), "milisegundos"⟩) ∧
      (1 ≤ crack_seconds E → crack_seconds E < 60 →
        calculate_crack_time E = ⟨round2 (crack_seconds E), "segundos"⟩) ∧
      (60 ≤ crack_seconds E → crack_seconds E < 3600 →
        calculate_crack_time E = ⟨round2 (crack_seconds E / 60), "minutos"⟩) ∧
      (3600 ≤ crack_seconds E → crack_seconds E < 86400 →
        calculate_crack_time E = ⟨round2 (crack_seconds E / 3600), "horas"⟩) ∧
      (86400 ≤ crack_seconds E → crack_seconds E < 31536000 →
        calculate_crack_time E = ⟨round2 (crack_seconds E / 86400), "días"⟩) ∧
      (31536000 ≤ crack_seconds E → crack_seconds E < 31536000000 →
        calculate_crack_time E = ⟨round2 (crack_seconds E / 31536000), "años"⟩) ∧
      (31536000000 ≤ crack_seconds E →
        calculate_crack_time E = ⟨round2 (crack_seconds E / 31536000000), "milenios"⟩)) ∧
    (∀ E : ℝ, crack_seconds E = 60 → (calculate_crack_time E).unit = "minutos") ∧
    ((calculate_crack_time 0).unit = "milisegundos" ∧ crack_seconds 0 < 1 / 1000) := by
  refine ⟨?_, ?_, ?_, ?_, ?_, ?_⟩
  · intro E
    unfold crack_seconds
    norm_num [attempts_per_second]
  · exact fun E₁ E₂ h => crack_seconds_mono h
  · intro E
    refine ⟨?_, ?_, ?_, ?_, ?_, ?_, ?_⟩
    · exact fun h => cct_band1 h
    · exact fun h1 h2 => cct_band2 (not_lt.mpr h1) h2
    · exact fun h1 h2 => cct_band3 (by linarith) (not_lt.mpr h1) h2
    · exact fun h1 h2 => cct_band4 (by linarith) (by linarith) (not_lt.mpr h1) h2
    · exact fun h1 h2 => cct_band5 (by linarith) (by linarith) (by linarith) (not_lt.mpr h1) h2
    · exact fun h1 h2 =>
        cct_band6 (by linarith) (by linarith) (by linarith) (by linarith) (not_lt.mpr h1) h2
    · exact fun h1 =>
        cct_band7 (by linarith) (by linarith) (by linarith) (by linarith) (by linarith)
          (not_lt.mpr h1)
  · intro E h
    rw [cct_band3 (by rw [h]; norm_num) (by rw [h]; norm_num) (by rw [h]; norm_num)]
  · rw [cct_band1 (by rw [crack_seconds_zero]; norm_num)]
  · rw [crack_seconds_zero]; norm_num

/-- Witness for C5: the theorem applied at concrete entropies hitting each
band, at the `seconds == 60` boundary (which selects minutes), at `E = 0`,
and at a concrete monotonicity instance. -/
theorem crack_time_bands_witness :
    (calculate_crack_time 0).unit = "milisegundos" ∧
    crack_seconds (Real.logb 2 (2 * 10 ^ 11)) = 1 ∧
    (calculate_crack_time (Real.logb 2 (2 * 10 ^ 11))).unit = "segundos" ∧
    crack_seconds (Real.logb 2 (12 * 10 ^ 12)) = 60 ∧
    (calculate_crack_time (Real.logb 2 (12 * 10 ^ 12))).unit = "minutos" ∧
    crack_seconds (Real.logb 2 (72 * 10 ^ 13)) = 3600 ∧
    (calculate_crack_time (Real.logb 2 (72 * 10 ^ 13))).unit = "horas" ∧
    crack_seconds (Real.logb 2 (1728 * 10 ^ 13)) = 86400 ∧
    (calculate_crack_time (Real.logb 2 (1728 * 10 ^ 13))).unit = "días" ∧
    crack_seconds (Real.logb 2 (63072 * 10 ^ 14)) = 31536000 ∧
    (calculate_crack_time (Real.logb 2 (63072 * 10 ^ 14))).unit = "años" ∧
    crack_seconds (Real.logb 2 (63072 * 10 ^ 17)) = 31536000000 ∧
    (calculate_crack_time (Real.logb 2 (63072 * 10 ^ 17))).unit = "milenios" ∧
    (0 : ℝ) ≤ 1 ∧ crack_seconds 0 ≤ crack_seconds 1 := by
  have e1 : crack_seconds (Real.logb 2 (2 * 10 ^ 11)) = 1 := by
    rw [crack_seconds_logb (by norm_num)]; norm_num
  have e2 : crack_seconds (Real.logb 2 (12 * 10 ^ 12)) = 60 := by
    rw [crack_seconds_logb (by norm_num)]; norm_num
  have e3 : crack_seconds (Real.logb 2 (72 * 10 ^ 13)) = 3600 := by
    rw [crack_seconds_logb (by norm_num)]; norm_num
  have e4 : crack_seconds (Real.logb 2 (1728 * 10 ^ 13)) = 86400 := by
    rw [crack_seconds_logb (by norm_num)]; norm_num
  have e5 : crack_seconds (Real.logb 2 (63072 * 10 ^ 14)) = 31536000 := by
    rw [crack_seconds_logb (by norm_num)]; norm_num
  have e6 : crack_seconds (Real.logb 2 (63072 * 10 ^ 17)) = 31536000000 := by
    rw [crack_seconds_logb (by norm_num)]; norm_num
  refine ⟨crack_time_bands.2.2.2.2.1, e1, ?_, e2, ?_, e3, ?_, e4, ?_, e5, ?_, e6, ?_,
    by norm_num, crack_time_bands.2.1 0 1 (by norm_num)⟩
  · rw [(crack_time_bands.2.2.1 _).2.1 (by rw [e1]) (by rw [e1]; norm_num)]
  · exact crack_time_bands.2.2.2.1 _ e2
  · rw [(crack_time_bands.2.2.1 _).2.2.2.1 (by rw [e3]) (by rw [e3]; norm_num)]
  · rw [(crack_time_bands.2.2.1 _).2.2.2.2.1 (by rw [e4]) (by rw [e4]; norm_num)]
  · rw [(crack_time_bands.2.2.1 _).2.2.2.2.2.1 (by rw [e5]) (by rw [e5]; norm_num)]
  · rw [(crack_time_bands.2.2.1 _).2.2.2.2.2.2 (by rw [e6])]

lemma evaluate_password_common_some (sem : CharSem) (isCommonF : String → Bool)
    (rankF : String → Option Nat) (p : String) (r : Nat)
    (h1 : isCommonF p = true) (h2 : rankF p = some r) :
    evaluate_password sem isCommonF rankF p = Except.ok
      { strength := "Muy Débil (En Diccionario)", score := 0, entropy := 0,
        is_common := true, rank := some r,
        crack_time := calculate_crack_time 0,
        composition := analyze_composition sem p,
        recommendation := dict_recommendation r } := by
  unfold evaluate_password
  simp [h1, h2, Except.map]

lemma evaluate_password_common_none (sem : CharSem) (isCommonF : String → Bool)
    (rankF : String → Option Nat) (p : String)
    (h1 : isCommonF p = true) (h2 : rankF p = none) :
    evaluate_password sem isCommonF rankF p = Except.error () := by
  unfold evaluate_password
  simp [h1, h2, Except.map]

lemma evaluate_password_not_common (sem : CharSem) (isCommonF : String → Bool)
    (rankF : String → Option Nat) (p : String) (h1 : isCommonF p = false) :
    evaluate_password sem isCommonF rankF p = Except.ok
      { strength := (get_strength_category (calculate_entropy sem p)).1,
        score := (get_strength_category (calculate_entropy sem p)).2.1,
        entropy := calculate_entropy sem p,
        is_common := false, rank := none,
        crack_time := calculate_crack_time (calculate_entropy sem p),
        composition := analyze_composition sem p,
        recommendation := (get_strength_category (calculate_entropy sem p)).2.2 } := by
  unfold evaluate_password
  simp [h1, Except.map]

/-- Claim C1: for every password the membership check reports as common and
whose corpus rank is retrievable — every corpus entry carries a rank —
`evaluate_password` returns a result with score 0, reported entropy 0.0,
the dictionary-override strength label, the recommendation naming the
rank of the password, and a crack time computed from the adjusted entropy 0.0,
which falls in the milliseconds band; the raw composition entropy of the
password plays no role. -/
theorem dictionary_override (sem : CharSem) (isCommonF : String → Bool)
    (rankF : String → Option Nat) (p : String) (r : Nat)
    (h1 : isCommonF p = true) (h2 : rankF p = some r) :
    ∃ ev, evaluate_password sem isCommonF rankF p = Except.ok ev ∧
      ev.score = 0 ∧ ev.entropy = 0 ∧
      ev.strength = "Muy Débil (En Diccionario)" ∧
      ev.recommendation = dict_recommendation r ∧
      ev.is_common = true ∧ ev.rank = some r ∧
      ev.crack_time = calculate_crack_time 0 ∧
      (calculate_crack_time 0).unit = "milisegundos" := by
  refine ⟨_, evaluate_password_common_some sem isCommonF rankF p r h1 h2,
    rfl, rfl, rfl, rfl, rfl, rfl, rfl, ?_⟩
  rw [cct_band1 (by rw [crack_seconds_zero]; norm_num)]

/-- Witness for C1: a membership function answering `true` and a rank
function answering rank 5 on the concrete password string. -/
theorem dictionary_override_witness :
    ((fun _ : String => true) "password" = true) ∧
    ((fun _ : String => some 5) "password" = some 5) ∧
    (∃ ev, evaluate_password asciiSem (fun _ => true) (fun _ => some 5) "password" =
        Except.ok ev ∧
      ev.score = 0 ∧ ev.entropy = 0 ∧
      ev.strength = "Muy Débil (En Diccionario)" ∧
      ev.recommendation = dict_recommendation 5 ∧
      ev.is_common = true ∧ ev.rank = some 5 ∧
      ev.crack_time = calculate_crack_time 0 ∧
      (calculate_crack_time 0).unit = "milisegundos") :=
  ⟨rfl, rfl, dictionary_override asciiSem (fun _ => true) (fun _ => some 5) "password" 5 rfl rfl⟩

/-- Claim C10: when the membership check returns `true` but the rank lookup
returns `None`, `evaluate_password` raises (the f-string formats `None`
with a thousands separator) instead of returning an `EvaluationResult`;
it is total whenever the password is not common or its rank is
retrievable. -/
theorem common_without_rank_raises :
    (∀ (sem : CharSem) (isCommonF : String → Bool) (rankF : String → Option Nat)
        (p : String), isCommonF p = true → rankF p = none →
      evaluate_password sem isCommonF rankF p = Except.error ()) ∧
    (∀ (sem : CharSem) (isCommonF : String → Bool) (rankF : String → Option Nat)
        (p : String), isCommonF p = false ∨ (∃ r, rankF p = some r) →
      ∃ ev, evaluate_password sem isCommonF rankF p = Except.ok ev) := by
  constructor
  · intro sem f g p h1 h2
    exact evaluate_password_common_none sem f g p h1 h2
  · intro sem f g p h
    rcases h with h | ⟨r, hr⟩
    · exact ⟨_, evaluate_password_not_common sem f g p h⟩
    · cases hc : f p
      · exact ⟨_, evaluate_password_not_common sem f g p hc⟩
      · exact ⟨_, evaluate_password_common_some sem f g p r hc hr⟩

/-- Witness for C10: a membership function answering `true` with a rank
function answering `None` makes the evaluation raise; answering not-common
returns a result. -/
theorem common_without_rank_raises_witness :
    ((fun _ : String => true) "admin" = true) ∧
    ((fun _ : String => (none : Option Nat)) "admin" = none) ∧
    evaluate_password asciiSem (fun _ => true) (fun _ => none) "admin" = Except.error () ∧
    (∃ ev, evaluate_password asciiSem (fun _ => false) (fun _ => none) "hello" =
      Except.ok ev) :=
  ⟨rfl, rfl, common_without_rank_raises.1 asciiSem (fun _ => true) (fun _ => none) "admin" rfl rfl,
   common_without_rank_raises.2 asciiSem (fun _ => false) (fun _ => none) "hello" (Or.inl rfl)⟩

/-- Claim C6 (code bug): the crack-time estimator is not total — at
entropy 1100 the source expression `2**entropy` overflows the IEEE-754
double range and CPython raises `OverflowError` instead of mapping the
input to the millennia band; below the overflow threshold the estimator
behaves normally. -/
theorem crack_time_overflow_raises :
    calculate_crack_time_float 1100 = Except.error () ∧
    calculate_crack_time_float 500 = Except.ok (calculate_crack_time 500) := by
  constructor
  · unfold calculate_crack_time_float
    rw [if_neg (by norm_num)]
  · unfold calculate_crack_time_float
    rw [if_pos (by norm_num)]

/-- Claim C8: if the corpus store failed to load or was never initialized,
startup raises the distinct error `"Base de datos no disponible"`, so the
application serves no request; startup succeeds exactly when the store
initialized, so the engine never runs in a silently degraded
no-password-is-common state. -/
theorem corpus_unavailable_fatal :
    (∀ env : StartupEnv, init_database env = false →
      lifespan env = Except.error "Base de datos no disponible") ∧
    (∀ env : StartupEnv, lifespan env = Except.ok () ↔ init_database env = true) := by
  constructor
  · intro env h
    simp [lifespan, h]
  · intro env
    unfold lifespan
    cases h : init_database env <;> simp [h]

/-- Witness for C8: a startup environment whose database file is missing
fails `init_database` and aborts startup with the distinct error. -/
theorem corpus_unavailable_fatal_witness :
    init_database ⟨false, false⟩ = false ∧
    lifespan ⟨false, false⟩ = Except.error "Base de datos no disponible" :=
  ⟨rfl, corpus_unavailable_fatal.1 ⟨false, false⟩ rfl⟩

lemma lru_lookup_mem {k : String} {v : Bool} {l : List (String × Bool)}
    (h : l.lookup k = some v) : (k, v) ∈ l := by
  induction l with
  | nil => simp [List.lookup] at h
  | cons a t ih =>
    rcases a with ⟨k₁, v₁⟩
    simp only [List.lookup] at h
    cases hb : (k == k₁) with
    | true =>
      rw [hb] at h
      cases h
      exact (eq_of_beq hb) ▸ List.mem_cons_self _ _
    | false =>
      rw [hb] at h
      exact List.mem_cons_of_mem _ (ih h)

lemma lru_call_result {f : String → Bool} {m : Nat} {c : LRUCache} {k : String}
    (hc : Coherent f c) : (lru_call f m c k).1 = f k := by
  cases hl : c.entries.lookup k with
  | none => simp only [lru_call, hl]
  | some v =>
    simp only [lru_call, hl]
    exact hc (k, v) (lru_lookup_mem hl)

lemma lru_call_coherent {f : String → Bool} {m : Nat} {c : LRUCache} {k : String}
    (hc : Coherent f c) : Coherent f (lru_call f m c k).2 := by
  intro kv hkv
  cases hl : c.entries.lookup k with
  | none =>
    simp only [lru_call, hl] at hkv
    split_ifs at hkv with hlen
    · rcases List.mem_cons.mp (List.dropLast_subset _ hkv) with h | h
      · subst h; rfl
      · exact hc kv h
    · rcases List.mem_cons.mp hkv with h | h
      · subst h; rfl
      · exact hc kv h
  | some v =>
    simp only [lru_call, hl] at hkv
    rcases List.mem_cons.mp hkv with h | h
    · subst h; exact hc (k, v) (lru_lookup_mem hl)
    · exact hc kv (List.mem_of_mem_eraseP h)

lemma lru_call_length {f : String → Bool} {m : Nat} {c : LRUCache} {k : String}
    (h : c.entries.length ≤ m) : (lru_call f m c k).2.entries.length ≤ m := by
  cases hl : c.entries.lookup k with
  | none =>
    simp only [lru_call, hl]
    split_ifs with hlen
    · rw [List.length_dropLast]
      simp only [List.length_cons]
      omega
    · simp only [List.length_cons] at hlen ⊢
      omega
  | some v =>
    simp only [lru_call, hl]
    have he := List.length_eraseP_add_one (p := fun e => e.1 == k)
      (lru_lookup_mem hl) (by simp)
    simp only [List.length_cons]
    omega

lemma lru_call_miss_head {f : String → Bool} {m : Nat} {c : LRUCache} {k : String}
    (hl : c.entries.lookup k = none) (hm : 1 ≤ m) :
    (lru_call f m c k).2.entries.head? = some (k, f k) := by
  simp only [lru_call, hl]
  split_ifs with hlen
  · cases hentries : c.entries with
    | nil => rw [hentries] at hlen; simp at hlen; omega
    | cons a t => simp
  · simp

lemma lru_call_hit {f : String → Bool} {m : Nat} {c : LRUCache} {k : String} {v : Bool}
    (hl : c.entries.lookup k = some v) : (lru_call f m c k).1 = v := by
  simp only [lru_call, hl]

/-- Counterexample for C7: the `lru_cache` memo is keyed on the raw call
argument, not on the normalized (lower-cased) input.  Querying `"ABC"` on
an empty cache stores the key `"ABC"` — not `py_lower "ABC" = "abc"` — and
a follow-up query for `"abc"` misses, leaving two distinct entries for the
two casings of the same normalized password. -/
theorem cache_key_not_normalized :
    ¬((is_common_password_cached db_empty ⟨[]⟩ "ABC").2.entries.map Prod.fst =
        [py_lower "ABC"]) ∧
    (is_common_password_cached db_empty ⟨[]⟩ "ABC").2.entries.map Prod.fst = ["ABC"] ∧
    py_lower "ABC" = "abc" ∧
    (is_common_password_cached db_empty
        ((is_common_password_cached db_empty ⟨[]⟩ "ABC").2) "abc").2.entries.length = 2 := by
  refine ⟨?_, ?_, ?_, ?_⟩ <;> decide

/-- Claim C7 (amended): the membership cache is a fixed-capacity
(`CACHE_MAXSIZE = 10000`) least-recently-used cache keyed on the raw input
string (results are nonetheless case-insensitive because the store query
lower-cases); against a fixed store the cache is transparent: the cached
membership result equals the uncached store result, coherence and the
capacity bound are preserved, any repeat query — in particular after an
eviction — returns the same result as the first query, and a miss stores
the raw key itself. -/
theorem cache_transparent_fixed_store :
    (∀ (db : DBState) (c : LRUCache) (p : String),
      Coherent (fun q => (is_common_password db q).1) c →
      (is_common_password_cached db c p).1 = (is_common_password db p).1 ∧
      Coherent (fun q => (is_common_password db q).1) (is_common_password_cached db c p).2 ∧
      (c.entries.length ≤ CACHE_MAXSIZE →
        (is_common_password_cached db c p).2.entries.length ≤ CACHE_MAXSIZE)) ∧
    (∀ (db : DBState) (c₁ c₂ : LRUCache) (p : String),
      Coherent (fun q => (is_common_password db q).1) c₁ →
      Coherent (fun q => (is_common_password db q).1) c₂ →
      (is_common_password_cached db c₁ p).1 = (is_common_password_cached db c₂ p).1) ∧
    (∀ (db : DBState) (p q : String), py_lower p = py_lower q →
      (is_common_password db p).1 = (is_common_password db q).1) ∧
    (∀ (db : DBState) (c : LRUCache) (p : String), c.entries.lookup p = none →
      (is_common_password_cached db c p).2.entries.head? =
        some (p, (is_common_password db p).1)) := by
  refine ⟨?_, ?_, ?_, ?_⟩
  · intro db c p hc
    exact ⟨lru_call_result hc, lru_call_coherent hc, fun h => lru_call_length h⟩
  · intro db c₁ c₂ p h₁ h₂
    rw [is_common_password_cached, is_common_password_cached,
      lru_call_result h₁, lru_call_result h₂]
  · intro db p q h
    unfold is_common_password
    rw [h]
  · intro db c p hl
    exact lru_call_miss_head hl (by norm_num [CACHE_MAXSIZE])

/-- Witness for C7: the amended theorem applied to the one-row store at
the concrete password `"pw"` starting from the empty (trivially coherent)
cache, and to the case variants `"PW"`/`"pw"`. -/
theorem cache_transparent_fixed_store_witness :
    Coherent (fun q => (is_common_password db_pw q).1) ⟨[]⟩ ∧
    (is_common_password_cached db_pw ⟨[]⟩ "pw").1 = (is_common_password db_pw "pw").1 ∧
    (is_common_password db_pw "PW").1 = (is_common_password db_pw "pw").1 ∧
    (is_common_password_cached db_pw ⟨[]⟩ "pw").2.entries.head? =
      some ("pw", (is_common_password db_pw "pw").1) := by
  have hc : Coherent (fun q => (is_common_password db_pw q).1) ⟨[]⟩ := by
    intro kv hkv
    simp at hkv
  exact ⟨hc, (cache_transparent_fixed_store.1 db_pw ⟨[]⟩ "pw" hc).1,
    cache_transparent_fixed_store.2.2.1 db_pw "PW" "pw" (by decide),
    cache_transparent_fixed_store.2.2.2 db_pw ⟨[]⟩ "pw" (by decide)⟩

/-- Counterexample for C9: the degraded not-common answer persists beyond
the failing request.  A request served while the store raises caches
`false` for `"pw"`; a later request for the same password against the
recovered store still answers `false` from the cache, while the uncached
store lookup answers `true`. -/
theorem degraded_result_persists :
    ¬((is_common_password_cached db_pw
          ((is_common_password_cached db_fail ⟨[]⟩ "pw").2) "pw").1 =
        (is_common_password db_pw "pw").1) ∧
    (is_common_password_cached db_fail ⟨[]⟩ "pw").1 = false ∧
    (is_common_password db_pw "pw").1 = true ∧
    (is_common_password_cached db_pw
        ((is_common_password_cached db_fail ⟨[]⟩ "pw").2) "pw").1 = false := by
  refine ⟨?_, ?_, ?_, ?_⟩ <;> decide

/-- Claim C9 (amended): a transient store failure during a request is
recovered locally — the password is treated as not common, the evaluation
still completes with a result, and a diagnostic is printed — but, because
the membership check is LRU-cached, the degraded not-common answer is
memoized and persists for later requests on the same password until
evicted (the rank lookup is uncached and does not persist). -/
theorem lookup_failure_degrades_locally :
    (∀ (db : DBState) (p e : String), db.conn = true →
      db.query (py_lower p) = Except.error e →
      (is_common_password db p).1 = false ∧ (is_common_password db p).2 ≠ [] ∧
      (get_password_rank db p).1 = none ∧ (get_password_rank db p).2 ≠ []) ∧
    (∀ (sem : CharSem) (isCommonF : String → Bool) (rankF : String → Option Nat)
        (p : String), isCommonF p = false →
      ∃ ev, evaluate_password sem isCommonF rankF p = Except.ok ev ∧
        ev.is_common = false ∧ ev.rank = none) ∧
    (∀ (f : String → Bool) (c : LRUCache) (k : String) (v : Bool),
      c.entries.lookup k = some v → (lru_call f CACHE_MAXSIZE c k).1 = v) := by
  refine ⟨?_, ?_, ?_⟩
  · intro db p e h1 h2
    unfold is_common_password get_password_rank
    rw [h1, h2]
    simp
  · intro sem f g p h
    exact ⟨_, evaluate_password_not_common sem f g p h, rfl, rfl⟩
  · intro f c k v h
    exact lru_call_hit h

/-- Witness for C9: the always-raising store at the concrete password
`"pw"`; evaluating that password as not-common completes; and a cached
`false` entry for `"pw"` answers `false` regardless of the recovered
store. -/
theorem lookup_failure_degrades_locally_witness :
    db_fail.conn = true ∧
    db_fail.query (py_lower "pw") = Except.error "disk I/O error" ∧
    (is_common_password db_fail "pw").1 = false ∧
    ((fun _ : String => false) "pw" = false) ∧
    (∃ ev, evaluate_password asciiSem (fun _ => false) (fun _ => none) "pw" =
      Except.ok ev ∧ ev.is_common = false ∧ ev.rank = none) ∧
    (LRUCache.mk [("pw", false)]).entries.lookup "pw" = some false ∧
    (lru_call (fun q => (is_common_password db_pw q).1) CACHE_MAXSIZE
      ⟨[("pw", false)]⟩ "pw").1 = false :=
  ⟨rfl, rfl,
   (lookup_failure_degrades_locally.1 db_fail "pw" "disk I/O error" rfl rfl).1,
   rfl,
   lookup_failure_degrades_locally.2.1 asciiSem (fun _ => false) (fun _ => none) "pw" rfl,
   by decide,
   lookup_failure_degrades_locally.2.2 (fun q => (is_common_password db_pw q).1)
     ⟨[("pw", false)]⟩ "pw" false (by decide)⟩
